import Mathlib

/-!
Shallow embedding of `src/mp4decrypt/src/lib.rs` (crate `mp4decrypt`): a safe
wrapper around a native MP4 decryption engine, exposing a host-facing function
`mp4decrypt` and a C-ABI adapter `mp4decrypt_capi`.

Modelling conventions:
* byte buffers (`&[u8]`, `Vec<u8>`) are `List Nat`;
* the opaque native engine (`decrypt_in_memory`, `decrypt_in_memory_with_fragments_info`)
  is a parameter (`NativeEngine`): each entry point returns the integer status
  and the payload of the output callback, `none` when the callback was never
  invoked (the callback overwrites the buffer, so only the last payload matters);
* a Rust panic (an `unwrap` failing) is a distinguished outcome, not a value;
* raw pointers that may be null are `Option`; a pointer/length pair describing
  a readable region is the `List Nat` of the bytes in that region;
* the external UTF-8 check (`CStr::to_str`) and JSON parsing (`serde_json`)
  are oracle parameters returning `Option`;
* `libc::malloc` is an oracle `Nat → Bool` saying whether an allocation of the
  given size succeeds.
-/

namespace Mp4Decrypt

/-- `u32::MAX`, the hard input-size ceiling. -/
def u32Max : Nat := 4294967295

/-- Modelled from the spec: the error kind of `DecryptError` (§3), declared in
the missing file `src/mp4decrypt/src/error.rs`; the three variants are pinned
by the exhaustive `match err.err_type` in `lib.rs`. -/
inductive ErrorType where
  | InvalidFormat : ErrorType
  | DataTooLarge : ErrorType
  | Failed : Int → ErrorType
deriving DecidableEq, Repr

/-- Modelled from the spec: the structured error (§3 DecryptError, a
kind/message pair), declared in the missing `error.rs`; the fields `msg` and
`err_type` are pinned by the struct literals in `lib.rs`. -/
structure Error where
  msg : String
  err_type : ErrorType
deriving DecidableEq, Repr

/-- The NUL character, which a `CString` cannot contain. -/
def nulChar : Char := Char.ofNat 0

/-- `CString::new`: succeeds exactly when the string has no embedded NUL byte.
The Rust code calls `.unwrap()` on the result, so `none` means a panic. -/
def cstringNew (s : String) : Option String :=
  if nulChar ∈ s.toList then none else some s

/-- The marshaling loop of `mp4decrypt` (lib.rs lines 102-107): convert each
kid/key pair to C strings, keeping the two sequences index-aligned.
`none` models the panic of `CString::new(...).unwrap()` on an embedded NUL. -/
def marshalKeys : List (String × String) → Option (List String × List String)
  | [] => some ([], [])
  | (kid, key) :: rest =>
    match cstringNew kid, cstringNew key, marshalKeys rest with
    | some ckid, some ckey, some (ckids, ckeys) => some (ckid :: ckids, ckey :: ckeys)
    | _, _, _ => none

/-- The opaque native decryption engine. Each entry point receives the data
bytes, the marshaled kid and key strings and the explicit key-pair count, and
returns the integer status together with the payload the engine delivered
through the output callback (`none` when the callback was never invoked). -/
structure NativeEngine where
  plain : List Nat → List String → List String → Int → Int × Option (List Nat)
  withFragments : List Nat → List String → List String → Int → List Nat → Int × Option (List Nat)

/-- Which native entry point a call went to. -/
inductive EntryPoint where
  | plain : EntryPoint
  | withFragments : EntryPoint
deriving DecidableEq, Repr

/-- One recorded native invocation: the entry point and the key-pair count
passed as the explicit `nkeys` argument. -/
structure CallRecord where
  entry : EntryPoint
  nkeys : Int
deriving DecidableEq, Repr

/-- Result of the host-facing function: `Ok(buffer)`, `Err(error)`, or a
process-aborting panic. -/
inductive DecryptOutcome where
  | panicked : DecryptOutcome
  | ok : List Nat → DecryptOutcome
  | err : Error → DecryptOutcome
deriving DecidableEq, Repr

/-- The error translator (lib.rs lines 147-167): map a non-zero native status
to a structured error. -/
def translateError (x : Int) : Error :=
  if x = 100 then ⟨"invalid hex format for key id.", .InvalidFormat⟩
  else if x = 101 then ⟨"invalid key id.", .InvalidFormat⟩
  else if x = 102 then ⟨"invalid hex format for key.", .InvalidFormat⟩
  else ⟨"failed to decrypt data with error code " ++ toString x ++ ".", .Failed x⟩

/-- The host-facing function `mp4decrypt` (lib.rs lines 86-169), together with
the trace of native invocations it performed. The `HashMap` of keys is
modelled as its entry list in iteration order. The hardcoded `1` passed as
`nkeys` (lib.rs lines 125 and 137) is reproduced as in the source. -/
def mp4decrypt (eng : NativeEngine) (data : List Nat) (keys : List (String × String))
    (fragments_info : Option (List Nat)) : DecryptOutcome × List CallRecord :=
  if data.length > u32Max then
    (.err ⟨"the input data stream is too large.", .DataTooLarge⟩, [])
  else
    match marshalKeys keys with
    | none => (.panicked, [])
    | some (ckids, ckeys) =>
      match fragments_info with
      | some frag =>
        if frag.length > u32Max then
          (.err ⟨"the fragments info data stream is too large.", .DataTooLarge⟩, [])
        else
          let r := eng.withFragments data ckids ckeys 1 frag
          (if r.1 = 0 then .ok (r.2.getD []) else .err (translateError r.1),
           [⟨.withFragments, 1⟩])
      | none =>
        let r := eng.plain data ckids ckeys 1
        (if r.1 = 0 then .ok (r.2.getD []) else .err (translateError r.1),
         [⟨.plain, 1⟩])

/-- The `DecryptError` out-parameter record of the C ABI (lib.rs lines 171-175):
an integer code and a NUL-terminated message string owned by the caller. -/
structure ErrRecord where
  code : Int
  message : String
deriving DecidableEq, Repr

/-- Observable result of one `mp4decrypt_capi` call: the returned status, what
was written through `out_ptr`/`out_len` (the allocated buffer's bytes and the
length), and what was written through `err_out`. `none` means the location was
not written. -/
structure CapiResult where
  status : Int
  out_written : Option (List Nat × Nat)
  err_written : Option ErrRecord
deriving DecidableEq, Repr

/-- Abstracted arguments of `mp4decrypt_capi`. A nullable in-pointer together
with its length is the `Option` of the byte region it describes
(`data_ptr`/`data_len`, `fragments_ptr`/`fragments_len`); `keys_json` is the
byte content of the NUL-terminated C string, `none` when the pointer is null;
the three out-pointers are tracked only by their null-ness. -/
structure CapiInput where
  data_ptr : Option (List Nat)
  keys_json : Option (List Nat)
  fragments_ptr : Option (List Nat)
  out_ptr_null : Bool
  out_len_null : Bool
  err_out_null : Bool

/-- Fragment presence rule of the adapter (lib.rs lines 224-228): the
fragments argument is passed to `mp4decrypt` exactly when `fragments_ptr` is
non-null and `fragments_len` is nonzero. -/
def capiFragmentArg : Option (List Nat) → Option (List Nat)
  | some l => if l.length > 0 then some l else none
  | none => none

/-- The error-code flattening of the adapter's failure path
(lib.rs lines 248-252). -/
def capiErrCode : ErrorType → Int
  | .InvalidFormat => 1
  | .DataTooLarge => 2
  | .Failed x => x

/-- The C-ABI adapter `mp4decrypt_capi` (lib.rs lines 178-259). The external
UTF-8 check (`CStr::to_str`) and JSON parsing (`serde_json::from_str` into a
string-to-string map) are the oracles `utf8Decode` and `parseKeysJson`;
`mallocOk n` says whether `libc::malloc(n)` succeeds. The overall `Option` is
`none` when the call panics (aborting the process): a NUL-containing key
reaching `CString::new(...).unwrap()` inside `mp4decrypt`, or a NUL-containing
error message reaching `CString::new(err.msg).unwrap()`. -/
def mp4decrypt_capi (eng : NativeEngine) (utf8Decode : List Nat → Option String)
    (parseKeysJson : String → Option (List (String × String)))
    (mallocOk : Nat → Bool) (inp : CapiInput) : Option CapiResult :=
  if inp.data_ptr.isNone || inp.keys_json.isNone || inp.out_ptr_null || inp.out_len_null then
    some ⟨-1, none, none⟩
  else
    let data := inp.data_ptr.getD []
    match utf8Decode (inp.keys_json.getD []) with
    | none =>
      if inp.err_out_null then some ⟨-2, none, none⟩
      else
        match cstringNew "Invalid UTF-8 in keys_json" with
        | none => none
        | some m => some ⟨-2, none, some ⟨-2, m⟩⟩
    | some keysStr =>
      match parseKeysJson keysStr with
      | none =>
        if inp.err_out_null then some ⟨-3, none, none⟩
        else
          match cstringNew "Failed to parse keys JSON" with
          | none => none
          | some m => some ⟨-3, none, some ⟨-3, m⟩⟩
      | some keys =>
        match (mp4decrypt eng data keys (capiFragmentArg inp.fragments_ptr)).1 with
        | .panicked => none
        | .ok output =>
          if mallocOk output.length then
            some ⟨0, some (output, output.length), none⟩
          else
            some ⟨-4, none, none⟩
        | .err e =>
          if inp.err_out_null then some ⟨1, none, none⟩
          else
            match cstringNew e.msg with
            | none => none
            | some m => some ⟨1, none, some ⟨capiErrCode e.err_type, m⟩⟩

/-- A concrete test double for the native engine: both entry points report
success (status 0) and never invoke the output callback. -/
def silentEngine : NativeEngine :=
  ⟨fun _ _ _ _ => (0, none), fun _ _ _ _ _ => (0, none)⟩

/-- A concrete test double for the native engine: both entry points report
status 100 and never invoke the output callback. -/
def status100Engine : NativeEngine :=
  ⟨fun _ _ _ _ => (100, none), fun _ _ _ _ _ => (100, none)⟩

/-! Helper lemmas: every error message the library builds is NUL-free, so the
`CString::new(err.msg).unwrap()` in the adapter's failure path cannot panic. -/

set_option maxHeartbeats 1000000 in
theorem digitChar_ne_nul (n : Nat) : Nat.digitChar n ≠ nulChar := by
  rcases Nat.lt_or_ge n 16 with h | h
  · interval_cases n <;> decide
  · unfold Nat.digitChar
    iterate 16 rw [if_neg (by omega)]
    decide

theorem toDigitsCore_no_nul (b fuel n : Nat) (ds : List Char)
    (h : nulChar ∉ ds) : nulChar ∉ Nat.toDigitsCore b fuel n ds := by
  induction fuel generalizing n ds with
  | zero => simpa [Nat.toDigitsCore] using h
  | succ fuel ih =>
    rw [Nat.toDigitsCore]
    have hd : nulChar ∉ Nat.digitChar (n % b) :: ds := by
      intro hm
      rcases List.mem_cons.mp hm with hm | hm
      · exact digitChar_ne_nul _ hm.symm
      · exact h hm
    split
    · exact hd
    · exact ih _ _ hd

theorem natRepr_no_nul (n : Nat) : nulChar ∉ (Nat.repr n).toList := by
  show nulChar ∉ Nat.toDigits 10 n
  exact toDigitsCore_no_nul 10 (n+1) n [] (by simp)

theorem toString_int_no_nul (x : Int) : nulChar ∉ (toString x).toList := by
  cases x with
  | ofNat n => exact natRepr_no_nul n
  | negSucc n =>
    show nulChar ∉ ("-" ++ Nat.repr (n+1)).toList
    have he : ("-" ++ Nat.repr (n+1)).toList = '-' :: (Nat.repr (n+1)).toList := by
      show ("-".data ++ (Nat.repr (n+1)).data) = _
      rfl
    rw [he]
    intro hm
    rcases List.mem_cons.mp hm with hm | hm
    · exact absurd hm (by decide)
    · exact natRepr_no_nul (n+1) hm

theorem string_toList_append (a b : String) : (a ++ b).toList = a.toList ++ b.toList := rfl

theorem translateError_msg_no_nul (x : Int) : nulChar ∉ (translateError x).msg.toList := by
  unfold translateError
  split_ifs <;> simp only []
  · decide
  · decide
  · decide
  · intro hm
    rw [string_toList_append, string_toList_append] at hm
    rcases List.mem_append.mp hm with hm | hm
    · rcases List.mem_append.mp hm with hm | hm
      · exact absurd hm (by decide)
      · exact toString_int_no_nul x hm
    · exact absurd hm (by decide)

theorem mp4decrypt_err_msg_no_nul (eng : NativeEngine) (data : List Nat)
    (keys : List (String × String)) (fragments_info : Option (List Nat)) (e : Error)
    (h : (mp4decrypt eng data keys fragments_info).1 = .err e) :
    nulChar ∉ e.msg.toList := by
  unfold mp4decrypt at h
  split_ifs at h with h1
  · cases h
    decide
  · rcases hm : marshalKeys keys with _ | ⟨ckids, ckeys⟩ <;> rw [hm] at h
    · cases h
    · cases fragments_info with
      | none =>
        simp only at h
        split_ifs at h
        all_goals cases h
        all_goals first
          | decide
          | exact translateError_msg_no_nul _
      | some frag =>
        simp only at h
        split_ifs at h
        all_goals cases h
        all_goals first
          | decide
          | exact translateError_msg_no_nul _

/-! Claim theorems. -/

/-- C1 (counterevidence): with a key map of two entries, the single native
invocation performed by `mp4decrypt` carries the hardcoded key-pair count 1,
not the number of entries actually marshaled (2). -/
theorem mp4decrypt_nkeys_hardcoded_one :
    (mp4decrypt silentEngine [] [("a", "b"), ("c", "d")] none).2 = [⟨.plain, 1⟩] ∧
      ([("a", "b"), ("c", "d")] : List (String × String)).length = 2 := by
  exact ⟨rfl, rfl⟩

/-- C2 (counterevidence): with a key identifier holding an embedded NUL byte
the host-facing function panics inside `CString::new(...).unwrap()` instead of
returning an `InvalidFormat` error value. -/
theorem mp4decrypt_panics_on_nul_key :
    (mp4decrypt silentEngine [0, 0, 0, 112]
        [("a\x00b", "100b6c20940f779a4589152b57d2dacb")] none).1 = .panicked := by
  decide

/-- C3: the error translation is total on integer statuses and maps 100, 101
and 102 to `InvalidFormat` with the three documented messages, and every other
non-zero status x to `Failed x` with the message carrying the decimal code. -/
theorem translateError_spec (x : Int) (hx : x ≠ 0) :
    (x = 100 → translateError x = ⟨"invalid hex format for key id.", .InvalidFormat⟩) ∧
    (x = 101 → translateError x = ⟨"invalid key id.", .InvalidFormat⟩) ∧
    (x = 102 → translateError x = ⟨"invalid hex format for key.", .InvalidFormat⟩) ∧
    (x ≠ 100 → x ≠ 101 → x ≠ 102 →
      translateError x =
        ⟨"failed to decrypt data with error code " ++ toString x ++ ".", .Failed x⟩) := by
  refine ⟨fun h => ?_, fun h => ?_, fun h => ?_, fun h1 h2 h3 => ?_⟩
  · subst h; rfl
  · subst h; rfl
  · subst h; rfl
  · unfold translateError
    rw [if_neg h1, if_neg h2, if_neg h3]

/-- C3 witness: the translation evaluated at the concrete status 103. -/
theorem translateError_spec_witness :
    translateError 103 =
      ⟨"failed to decrypt data with error code " ++ toString (103 : Int) ++ ".",
        .Failed 103⟩ :=
  (translateError_spec 103 (by decide)).2.2.2 (by decide) (by decide) (by decide)

/-- C4: an oversized main stream makes `mp4decrypt` fail with `DataTooLarge`
without any native invocation; an oversized fragments-info stream (with the
keys marshalable, i.e. not hitting the NUL-byte panic first) likewise yields a
`DataTooLarge` error and no native invocation. -/
theorem mp4decrypt_data_too_large (eng : NativeEngine) (data : List Nat)
    (keys : List (String × String)) (fragments_info : Option (List Nat)) :
    (data.length > u32Max →
      (mp4decrypt eng data keys fragments_info).1 =
          .err ⟨"the input data stream is too large.", .DataTooLarge⟩ ∧
        (mp4decrypt eng data keys fragments_info).2 = []) ∧
    (∀ frag, fragments_info = some frag → frag.length > u32Max →
      (marshalKeys keys).isSome →
      (∃ m, (mp4decrypt eng data keys fragments_info).1 = .err ⟨m, .DataTooLarge⟩) ∧
        (mp4decrypt eng data keys fragments_info).2 = []) := by
  constructor
  · intro h
    unfold mp4decrypt
    rw [if_pos h]
    exact ⟨rfl, rfl⟩
  · intro frag hfrag hlen hm
    subst hfrag
    unfold mp4decrypt
    split_ifs with h1
    · exact ⟨⟨"the input data stream is too large.", rfl⟩, rfl⟩
    · rcases hmk : marshalKeys keys with _ | ⟨ckids, ckeys⟩
      · rw [hmk] at hm; cases hm
      · refine ⟨⟨"the fragments info data stream is too large.", ?_⟩, ?_⟩ <;> simp [hlen]

/-- C4 witness: a fragments-info stream one byte past the 32-bit ceiling is
rejected as `DataTooLarge` with no native invocation. -/
theorem mp4decrypt_data_too_large_witness :
    (∃ m, (mp4decrypt silentEngine [] [] (some (List.replicate (u32Max + 1) 0))).1 =
        .err ⟨m, .DataTooLarge⟩) ∧
      (mp4decrypt silentEngine [] [] (some (List.replicate (u32Max + 1) 0))).2 = [] :=
  (mp4decrypt_data_too_large silentEngine [] [] _).2 _ rfl
    (by rw [List.length_replicate]; omega) (by decide)

/-- C6: when the engine reports status 0 without ever invoking the output
callback, `mp4decrypt` returns `Ok` with the empty buffer, not an error. -/
theorem mp4decrypt_ok_empty_of_silent (eng : NativeEngine) (data : List Nat)
    (keys : List (String × String)) (fragments_info : Option (List Nat))
    (hp : ∀ d kids ks n, eng.plain d kids ks n = (0, none))
    (hf : ∀ d kids ks n fr, eng.withFragments d kids ks n fr = (0, none))
    (hd : data.length ≤ u32Max)
    (hfr : ∀ frag, fragments_info = some frag → frag.length ≤ u32Max)
    (hm : (marshalKeys keys).isSome) :
    (mp4decrypt eng data keys fragments_info).1 = .ok [] := by
  unfold mp4decrypt
  rw [if_neg (by omega)]
  rcases hmk : marshalKeys keys with _ | ⟨ckids, ckeys⟩
  · rw [hmk] at hm; cases hm
  · cases fragments_info with
    | none => simp [hp]
    | some frag =>
      have := hfr frag rfl
      simp only
      rw [if_neg (by omega), hf]
      rfl

/-- C6 witness: the silent engine on empty concrete inputs yields the empty
buffer. -/
theorem mp4decrypt_ok_empty_of_silent_witness :
    (mp4decrypt silentEngine [0, 0, 0, 112] [("k", "v")] none).1 = .ok [] :=
  mp4decrypt_ok_empty_of_silent silentEngine [0, 0, 0, 112] [("k", "v")] none
    (fun _ _ _ _ => rfl) (fun _ _ _ _ _ => rfl) (by decide)
    (fun _ h => by cases h) (by decide)

theorem cstringNew_of_no_nul {s : String} (h : nulChar ∉ s.toList) : cstringNew s = some s := by
  unfold cstringNew
  rw [if_neg h]

/-- C5: every native invocation of `mp4decrypt` goes to the fragment-aware
entry point exactly when fragment info was supplied; and the adapter passes a
fragments argument to `mp4decrypt` exactly when `fragments_ptr` is non-null
and `fragments_len` is nonzero, the argument being that very byte region. -/
theorem mp4decrypt_routing (eng : NativeEngine) (data : List Nat)
    (keys : List (String × String)) (fragments_info : Option (List Nat)) :
    (∀ r ∈ (mp4decrypt eng data keys fragments_info).2,
      (r.entry = .withFragments ↔ fragments_info.isSome)) ∧
    (∀ fp l, capiFragmentArg fp = some l ↔ (fp = some l ∧ l.length ≠ 0)) := by
  constructor
  · intro r hr
    unfold mp4decrypt at hr
    split_ifs at hr with h1
    · simp at hr
    · rcases hmk : marshalKeys keys with _ | ⟨ckids, ckeys⟩ <;> rw [hmk] at hr
      · simp at hr
      · cases fragments_info with
        | none =>
          simp only [List.mem_singleton] at hr
          subst hr
          decide
        | some frag =>
          simp only at hr
          split_ifs at hr <;>
            first
            | (simp only [List.mem_singleton] at hr
               subst hr
               simp)
            | simp at hr
  · intro fp l
    cases fp with
    | none => simp [capiFragmentArg]
    | some m =>
      show (if m.length > 0 then some m else none) = some l ↔ (some m = some l ∧ l.length ≠ 0)
      split_ifs with h
      · constructor
        · intro he
          cases he
          exact ⟨rfl, by omega⟩
        · intro he
          rw [he.1]
      · constructor
        · intro he
          cases he
        · intro he
          cases he.1
          omega

/-- C5 witness: a supplied fragments stream routes the concrete call to the
fragment-aware entry point, and a non-null nonempty fragments region is passed
through by the adapter. -/
theorem mp4decrypt_routing_witness :
    (⟨.withFragments, 1⟩ : CallRecord).entry = .withFragments ∧
      capiFragmentArg (some [7]) = some [7] :=
  ⟨((mp4decrypt_routing silentEngine [] [] (some [5])).1 ⟨.withFragments, 1⟩
      (by decide)).mpr (by decide),
   ((mp4decrypt_routing silentEngine [] [] (some [5])).2 (some [7]) [7]).mpr
      ⟨rfl, by decide⟩⟩

/-- C7: the adapter validates in order: a null required pointer yields -1 with
`err_out` untouched; then invalid UTF-8 in `keys_json` yields -2, populating
`err_out` (when non-null) with "Invalid UTF-8 in keys_json"; then a failed
JSON parse yields -3, populating `err_out` (when non-null) with
"Failed to parse keys JSON". -/
theorem capi_validation_order (eng : NativeEngine) (utf8Decode : List Nat → Option String)
    (parseKeysJson : String → Option (List (String × String))) (mallocOk : Nat → Bool)
    (inp : CapiInput) :
    ((inp.data_ptr = none ∨ inp.keys_json = none ∨ inp.out_ptr_null = true ∨
        inp.out_len_null = true) →
      mp4decrypt_capi eng utf8Decode parseKeysJson mallocOk inp = some ⟨-1, none, none⟩) ∧
    (∀ d j, inp.data_ptr = some d → inp.keys_json = some j → inp.out_ptr_null = false →
      inp.out_len_null = false → utf8Decode j = none →
      mp4decrypt_capi eng utf8Decode parseKeysJson mallocOk inp =
        some ⟨-2, none,
          if inp.err_out_null then none else some ⟨-2, "Invalid UTF-8 in keys_json"⟩⟩) ∧
    (∀ d j s, inp.data_ptr = some d → inp.keys_json = some j → inp.out_ptr_null = false →
      inp.out_len_null = false → utf8Decode j = some s → parseKeysJson s = none →
      mp4decrypt_capi eng utf8Decode parseKeysJson mallocOk inp =
        some ⟨-3, none,
          if inp.err_out_null then none else some ⟨-3, "Failed to parse keys JSON"⟩⟩) := by
  refine ⟨fun h => ?_, fun d j hd hj ho hl hu => ?_, fun d j s hd hj ho hl hu hps => ?_⟩
  · unfold mp4decrypt_capi
    rw [if_pos]
    rcases h with h | h | h | h <;> simp [h]
  · unfold mp4decrypt_capi
    rw [if_neg (by simp [hd, hj, ho, hl])]
    rw [hj]
    simp only [Option.getD_some]
    rw [hu]
    cases he : inp.err_out_null with
    | true => rfl
    | false =>
      rw [if_neg (by simp), cstringNew_of_no_nul (by decide)]
      rfl
  · unfold mp4decrypt_capi
    rw [if_neg (by simp [hd, hj, ho, hl])]
    rw [hj]
    simp only [Option.getD_some]
    rw [hu]
    simp only [hps]
    cases he : inp.err_out_null with
    | true => rfl
    | false => decide

/-- C7 witness: the three validation outcomes at concrete adapter inputs. -/
theorem capi_validation_order_witness :
    mp4decrypt_capi silentEngine (fun _ => none) (fun _ => none) (fun _ => true)
        ⟨none, some [0xff], none, false, false, false⟩ = some ⟨-1, none, none⟩ ∧
      mp4decrypt_capi silentEngine (fun _ => none) (fun _ => none) (fun _ => true)
        ⟨some [1], some [0xff], none, false, false, false⟩ =
        some ⟨-2, none, some ⟨-2, "Invalid UTF-8 in keys_json"⟩⟩ ∧
      mp4decrypt_capi silentEngine (fun _ => some "bad") (fun _ => none) (fun _ => true)
        ⟨some [1], some [98], none, false, false, false⟩ =
        some ⟨-3, none, some ⟨-3, "Failed to parse keys JSON"⟩⟩ :=
  ⟨(capi_validation_order silentEngine (fun _ => none) (fun _ => none) (fun _ => true)
      ⟨none, some [0xff], none, false, false, false⟩).1 (Or.inl rfl),
   (capi_validation_order silentEngine (fun _ => none) (fun _ => none) (fun _ => true)
      ⟨some [1], some [0xff], none, false, false, false⟩).2.1 [1] [0xff] rfl rfl rfl rfl rfl,
   (capi_validation_order silentEngine (fun _ => some "bad") (fun _ => none) (fun _ => true)
      ⟨some [1], some [98], none, false, false, false⟩).2.2 [1] [98] "bad"
      rfl rfl rfl rfl rfl rfl⟩

/-- C8: when the underlying decrypt succeeds, the adapter allocates a buffer
whose bytes equal the decrypted output byte-for-byte and whose length equals
the output's length, writes both through `out_ptr`/`out_len` and returns 0;
when that allocation fails it returns -4 without populating `err_out`. -/
theorem capi_success_exact_copy (eng : NativeEngine) (utf8Decode : List Nat → Option String)
    (parseKeysJson : String → Option (List (String × String))) (mallocOk : Nat → Bool)
    (inp : CapiInput) (d j : List Nat) (s : String) (keys : List (String × String))
    (output : List Nat)
    (hd : inp.data_ptr = some d) (hj : inp.keys_json = some j)
    (ho : inp.out_ptr_null = false) (hl : inp.out_len_null = false)
    (hu : utf8Decode j = some s) (hps : parseKeysJson s = some keys)
    (hok : (mp4decrypt eng d keys (capiFragmentArg inp.fragments_ptr)).1 = .ok output) :
    (mallocOk output.length = true →
      mp4decrypt_capi eng utf8Decode parseKeysJson mallocOk inp =
        some ⟨0, some (output, output.length), none⟩) ∧
    (mallocOk output.length = false →
      mp4decrypt_capi eng utf8Decode parseKeysJson mallocOk inp =
        some ⟨-4, none, none⟩) := by
  unfold mp4decrypt_capi
  rw [if_neg (by simp [hd, hj, ho, hl])]
  rw [hj]
  simp only [Option.getD_some]
  rw [hu]
  simp only [hps]
  rw [hd]
  simp only [Option.getD_some]
  rw [hok]
  constructor <;> intro hm <;> simp [hm]

/-- C8 witness: a concrete successful decrypt through the adapter copies the
(empty) output and returns 0; with a failing allocator it returns -4. -/
theorem capi_success_exact_copy_witness :
    mp4decrypt_capi silentEngine (fun _ => some "{}") (fun _ => some []) (fun _ => true)
        ⟨some [0], some [123], none, false, false, false⟩ =
      some ⟨0, some ([], 0), none⟩ ∧
    mp4decrypt_capi silentEngine (fun _ => some "{}") (fun _ => some []) (fun _ => false)
        ⟨some [0], some [123], none, false, false, false⟩ =
      some ⟨-4, none, none⟩ :=
  ⟨(capi_success_exact_copy silentEngine (fun _ => some "{}") (fun _ => some [])
      (fun _ => true) ⟨some [0], some [123], none, false, false, false⟩
      [0] [123] "{}" [] [] rfl rfl rfl rfl rfl rfl (by decide)).1 rfl,
   (capi_success_exact_copy silentEngine (fun _ => some "{}") (fun _ => some [])
      (fun _ => false) ⟨some [0], some [123], none, false, false, false⟩
      [0] [123] "{}" [] [] rfl rfl rfl rfl rfl rfl (by decide)).2 rfl⟩

/-- C9: when the underlying decrypt fails, the adapter returns status 1 and,
when `err_out` is non-null, writes the error record with code 1 for
`InvalidFormat`, 2 for `DataTooLarge` and x for `Failed x`, together with the
error's message. -/
theorem capi_failure_maps_error (eng : NativeEngine) (utf8Decode : List Nat → Option String)
    (parseKeysJson : String → Option (List (String × String))) (mallocOk : Nat → Bool)
    (inp : CapiInput) (d j : List Nat) (s : String) (keys : List (String × String))
    (e : Error)
    (hd : inp.data_ptr = some d) (hj : inp.keys_json = some j)
    (ho : inp.out_ptr_null = false) (hl : inp.out_len_null = false)
    (hu : utf8Decode j = some s) (hps : parseKeysJson s = some keys)
    (herr : (mp4decrypt eng d keys (capiFragmentArg inp.fragments_ptr)).1 = .err e) :
    mp4decrypt_capi eng utf8Decode parseKeysJson mallocOk inp =
        some ⟨1, none,
          if inp.err_out_null then none else some ⟨capiErrCode e.err_type, e.msg⟩⟩ ∧
      capiErrCode .InvalidFormat = 1 ∧ capiErrCode .DataTooLarge = 2 ∧
      (∀ y, capiErrCode (.Failed y) = y) := by
  refine ⟨?_, rfl, rfl, fun y => rfl⟩
  have hnn : nulChar ∉ e.msg.toList :=
    mp4decrypt_err_msg_no_nul eng d keys (capiFragmentArg inp.fragments_ptr) e herr
  unfold mp4decrypt_capi
  rw [if_neg (by simp [hd, hj, ho, hl])]
  rw [hj]
  simp only [Option.getD_some]
  rw [hu]
  simp only [hps]
  rw [hd]
  simp only [Option.getD_some]
  rw [herr]
  simp only [cstringNew_of_no_nul hnn]
  cases he : inp.err_out_null with
  | true => rfl
  | false => rfl

/-- C9 witness: a status-100 engine failure surfaces through the adapter as
status 1 with error code 1 (`InvalidFormat`) and the documented message. -/
theorem capi_failure_maps_error_witness :
    mp4decrypt_capi status100Engine (fun _ => some "{}") (fun _ => some []) (fun _ => true)
        ⟨some [0], some [123], none, false, false, false⟩ =
        some ⟨1, none,
          if false then none
          else some ⟨capiErrCode ErrorType.InvalidFormat, "invalid hex format for key id."⟩⟩ ∧
      capiErrCode .InvalidFormat = 1 ∧ capiErrCode .DataTooLarge = 2 ∧
      (∀ y, capiErrCode (.Failed y) = y) :=
  capi_failure_maps_error status100Engine (fun _ => some "{}") (fun _ => some [])
    (fun _ => true) ⟨some [0], some [123], none, false, false, false⟩
    [0] [123] "{}" [] ⟨"invalid hex format for key id.", .InvalidFormat⟩
    rfl rfl rfl rfl rfl rfl (by decide)

/-- C10: whenever the adapter returns (does not abort), the locations behind
`out_ptr` and `out_len` are written exactly when the returned status is 0;
for every non-zero status they are left untouched. -/
theorem capi_out_written_iff_success (eng : NativeEngine) (utf8Decode : List Nat → Option String)
    (parseKeysJson : String → Option (List (String × String))) (mallocOk : Nat → Bool)
    (inp : CapiInput) (r : CapiResult)
    (h : mp4decrypt_capi eng utf8Decode parseKeysJson mallocOk inp = some r) :
    (r.out_written.isSome ↔ r.status = 0) := by
  unfold mp4decrypt_capi at h
  by_cases h1 : (inp.data_ptr.isNone || inp.keys_json.isNone || inp.out_ptr_null
      || inp.out_len_null) = true
  · rw [if_pos h1] at h
    cases h
    simp
  · rw [if_neg h1] at h
    rcases hu : utf8Decode (inp.keys_json.getD []) with _ | s <;> rw [hu] at h <;>
      try simp at h
    · cases he : inp.err_out_null <;> rw [he] at h <;>
        simp [cstringNew_of_no_nul (show nulChar ∉ "Invalid UTF-8 in keys_json".toList by
          decide)] at h <;> subst h <;> norm_num
    · rcases hp : parseKeysJson s with _ | keys <;> rw [hp] at h <;> try simp at h
      · cases he : inp.err_out_null <;> rw [he] at h <;>
          simp [cstringNew_of_no_nul (show nulChar ∉ "Failed to parse keys JSON".toList by
            decide)] at h <;> subst h <;> norm_num
      · rcases ho : (mp4decrypt eng (inp.data_ptr.getD []) keys
            (capiFragmentArg inp.fragments_ptr)).1 with _ | output | e <;> rw [ho] at h
        · simp at h
        · have h2 : (if mallocOk output.length then
                some (⟨0, some (output, output.length), none⟩ : CapiResult)
              else some ⟨-4, none, none⟩) = some r := h
          split_ifs at h2 <;> cases h2 <;> norm_num
        · have h2 : (if inp.err_out_null then
                some (⟨1, none, none⟩ : CapiResult)
              else
                match cstringNew e.msg with
                | none => none
                | some m => some ⟨1, none, some ⟨capiErrCode e.err_type, m⟩⟩) = some r := h
          cases he : inp.err_out_null <;> rw [he] at h2
          · rcases hcs : cstringNew e.msg with _ | m <;> rw [hcs] at h2
            · cases h2
            · cases h2
              norm_num
          · cases h2
            norm_num

/-- C10 witness: the -1 fast-fail result writes nothing and its status is
non-zero. -/
theorem capi_out_written_iff_success_witness :
    ((⟨-1, none, none⟩ : CapiResult).out_written.isSome ↔
      (⟨-1, none, none⟩ : CapiResult).status = 0) :=
  capi_out_written_iff_success silentEngine (fun _ => none) (fun _ => none) (fun _ => true)
    ⟨none, none, none, false, false, false⟩ ⟨-1, none, none⟩ rfl

end Mp4Decrypt
